import Mathlib

/-!
Shallow embedding of the turismo-app backend (hotels / cabins / airbnb
listings over a document store), covering the pieces exercised by the
claims: the airbnb controller (getAllAirbnb, getAirbnb, createAirbnb,
updateAirbnb, deleteAirbnb), the hotel image-management routes
(upload, delete by index, set-main), and the toggle-status routes of the
three resource types.  HTTP parsing, Mongoose populate-joins and the
storage engine's own timestamps are outside the embedding; handlers take
already-resolved users, parsed indices (as integers) and an explicit
clock value, and the document store is a list of records with id-based
lookup and whole-record save.
-/

/-- Structured location sub-object of a listing (ubicacion.ciudad is the
field used by the list-endpoint city filter). -/
structure Ubicacion where
  ciudad : String := ""
  direccion : String := ""
  deriving DecidableEq

/-- Audit stamp (ultimaModificacion): the update handler stores
usuario / fecha / camposModificados, the toggle-status handlers store
usuario / fecha / accion / motivo. -/
structure Modificacion where
  usuario : String
  fecha : Nat
  accion : Option String := none
  motivo : Option String := none
  camposModificados : List String := []
  deriving DecidableEq

/-- A persisted listing document (hotel, cabin or airbnb rental).  The
content fields kept here are the ones the embedded handlers read or
write; calificacion.promedio and capacidad.huespedes are flattened to
single numeric fields. -/
structure Listing where
  id : String
  propietario : String
  nombre : String := ""
  descripcion : String := ""
  precioPorNoche : Nat := 0
  tipoPropiedad : String := ""
  huespedes : Nat := 0
  califPromedio : Nat := 0
  servicios : List String := []
  ubicacion : Ubicacion := {}
  imagenes : List String := []
  activo : Bool := true
  ultimaModificacion : Option Modificacion := none
  createdAt : Nat := 0
  updatedAt : Nat := 0
  deriving DecidableEq

/-- The acting user as resolved by the auth middleware (req.user). -/
structure User where
  id : String
  email : String
  isSuperAdmin : Bool := false
  role : String := "admin"
  deriving DecidableEq

/-- The document store: the collection a resource type's handlers read
and write. -/
abbrev Store := List Listing

/-- Model.findById: first record with the given id. -/
def findById (db : Store) (i : String) : Option Listing :=
  db.find? (fun r => r.id == i)

/-- Model.findOne with the filter used by every image route:
{ _id, propietario: req.user.id, activo: true }. -/
def findOwnedActive (db : Store) (i uid : String) : Option Listing :=
  db.find? (fun r => r.id == i && r.propietario == uid && r.activo)

/-- document.save() / findByIdAndUpdate persistence: replace the stored
record(s) bearing this record's id. -/
def saveRecord (db : Store) (r : Listing) : Store :=
  db.map (fun x => if x.id == r.id then r else x)

/-- Caller-facing envelope: ok carries the HTTP code and the data
payload, err the code and the human-readable message. -/
inductive HResult (α : Type) where
  | ok (code : Nat) (data : α)
  | err (code : Nat) (msg : String)
  deriving DecidableEq

/-- Whether the envelope reports success. -/
def HResult.isOk {α : Type} : HResult α → Bool
  | .ok _ _ => true
  | .err _ _ => false

/-- Super-admin test inside the airbnb controller (part_005, used by
getAllAirbnb, getMisAirbnb, updateAirbnb, deleteAirbnb):
email equals the direccion address, or the isSuperAdmin flag. -/
def airbnbCtrlSuperAdmin (u : User) : Bool :=
  u.email == "direcciondeturismojalpan@gmail.com" || u.isSuperAdmin

/-- Email allow-list of the hotel toggle-status route (hotelRoutes.js). -/
def hotelToggleEmails : List String :=
  ["direcciondeturismojalpan@gmail.com"]

/-- Email allow-list of the cabin toggle-status route (part_004). -/
def cabanaToggleEmails : List String :=
  ["superadmin@turismo.com", "direcciondeturismojalpan@gmail.com"]

/-- Email allow-list of the airbnb toggle-status route (part_002). -/
def airbnbToggleEmails : List String :=
  ["superadmin@turismo.com", "direcciondeturismojalpan@gmail.com"]

/-- Super-admin test of the hotel toggle-status route: the single email,
the isSuperAdmin flag, or the super-admin role. -/
def hotelToggleSuperAdmin (u : User) : Bool :=
  u.email == "direcciondeturismojalpan@gmail.com" || u.isSuperAdmin ||
    u.role == "super-admin"

/-- Super-admin test of the cabin toggle-status route: two emails, the
isSuperAdmin flag, or the super-admin role. -/
def cabanaToggleSuperAdmin (u : User) : Bool :=
  u.email == "superadmin@turismo.com" ||
    u.email == "direcciondeturismojalpan@gmail.com" || u.isSuperAdmin ||
    u.role == "super-admin"

/-- Super-admin test of the airbnb toggle-status route: same shape as
the cabin one. -/
def airbnbToggleSuperAdmin (u : User) : Bool :=
  u.email == "superadmin@turismo.com" ||
    u.email == "direcciondeturismojalpan@gmail.com" || u.isSuperAdmin ||
    u.role == "super-admin"

/-- Update patch (req.body of the edit endpoint) after the HTTP layer:
each field optionally present; structured sub-objects arrive whole.
A present propietario key is deliberately kept, because the handler
copies the whole body into updateData and only remaps precio. -/
structure Patch where
  nombre : Option String := none
  descripcion : Option String := none
  precio : Option Nat := none
  precioPorNoche : Option Nat := none
  tipoPropiedad : Option String := none
  servicios : Option (List String) := none
  ubicacion : Option Ubicacion := none
  propietario : Option String := none
  deriving DecidableEq

/-- The precio -> precioPorNoche remapping done by updateAirbnb: when a
precio key is present it is moved onto precioPorNoche and the original
key deleted.  (The JS guard is truthiness of the value; presence is the
faithful reading for the form-submitted values exercised here.) -/
def mapPrecio (p : Patch) : Patch :=
  match p.precio with
  | some v => { p with precioPorNoche := some v, precio := none }
  | none => p

/-- Object.keys of updateData as computed before the audit stamp is
added: the names of the keys present in the (precio-remapped) patch. -/
def patchKeys (p : Patch) : List String :=
  (if p.nombre.isSome then ["nombre"] else []) ++
  (if p.descripcion.isSome then ["descripcion"] else []) ++
  (if p.precio.isSome then ["precio"] else []) ++
  (if p.precioPorNoche.isSome then ["precioPorNoche"] else []) ++
  (if p.tipoPropiedad.isSome then ["tipoPropiedad"] else []) ++
  (if p.servicios.isSome then ["servicios"] else []) ++
  (if p.ubicacion.isSome then ["ubicacion"] else []) ++
  (if p.propietario.isSome then ["propietario"] else [])

/-- findByIdAndUpdate with updateData: every key present in the patch
replaces the corresponding top-level field wholesale (including
propietario when present), the audit stamp is written, and the storage
layer refreshes updatedAt. -/
def applyPatch (r : Listing) (p : Patch) (uid : String) (now : Nat) : Listing :=
  { r with
    nombre := p.nombre.getD r.nombre
    descripcion := p.descripcion.getD r.descripcion
    precioPorNoche := p.precioPorNoche.getD r.precioPorNoche
    tipoPropiedad := p.tipoPropiedad.getD r.tipoPropiedad
    servicios := p.servicios.getD r.servicios
    ubicacion := p.ubicacion.getD r.ubicacion
    propietario := p.propietario.getD r.propietario
    ultimaModificacion :=
      some { usuario := uid, fecha := now, camposModificados := patchKeys p }
    updatedAt := now }

/-- createAirbnb: req.body.propietario is overwritten with the
authenticated user's id before the document is created, so the stored
owner is always the creator regardless of the submitted body. -/
def createAirbnb (db : Store) (u : User) (body : Listing) (newId : String) :
    Store × HResult Listing :=
  let nuevo := { body with id := newId, propietario := u.id }
  (db ++ [nuevo], .ok 201 nuevo)

/-- updateAirbnb: load by id (404 when absent), deny with 403 when the
caller is neither controller-super-admin nor the owner, otherwise remap
precio, stamp ultimaModificacion and persist the patched record. -/
def updateAirbnb (db : Store) (u : User) (i : String) (body : Patch) (now : Nat) :
    Store × HResult Listing :=
  match findById db i with
  | none => (db, .err 404 "No se encontró el alojamiento")
  | some r =>
    if !airbnbCtrlSuperAdmin u && r.propietario != u.id then
      (db, .err 403 "No tienes permiso para actualizar este alojamiento")
    else
      let updated := applyPatch r (mapPrecio body) u.id now
      (saveRecord db updated, .ok 200 updated)

/-- deleteAirbnb: load by id (404 when absent), deny with 403 when the
caller is neither controller-super-admin nor the owner, otherwise soft
delete - set activo to false and save; the document stays stored. -/
def deleteAirbnb (db : Store) (u : User) (i : String) :
    Store × HResult Unit :=
  match findById db i with
  | none => (db, .err 404 "No se encontró el alojamiento")
  | some r =>
    if !airbnbCtrlSuperAdmin u && r.propietario != u.id then
      (db, .err 403 "No tienes permiso para eliminar este alojamiento")
    else
      (saveRecord db { r with activo := false }, .ok 204 ())

/-- Query-string filters of the public list endpoint. -/
structure AirbnbQuery where
  ciudad : Option String := none
  precioMin : Option Nat := none
  precioMax : Option Nat := none
  huespedes : Option Nat := none
  tipo : Option String := none
  deriving DecidableEq

/-- Whether the first character list starts the second one. -/
def leadsChars : List Char → List Char → Bool
  | [], _ => true
  | _ :: _, [] => false
  | a :: as, b :: bs => a == b && leadsChars as bs

/-- Whether the first character list occurs contiguously inside the
second one. -/
def hasSubChars (needle : List Char) : List Char → Bool
  | [] => leadsChars needle []
  | c :: rest => leadsChars needle (c :: rest) || hasSubChars needle rest

/-- Case-insensitive substring test, modelling new RegExp(pattern, i)
applied to a stored field. -/
def iContains (hay needle : String) : Bool :=
  hasSubChars (needle.data.map Char.toLower) (hay.data.map Char.toLower)

/-- The find-filters getAllAirbnb builds for a non-super-admin caller
(besides activo: ciudad regex, precio range, minimum huespedes, exact
tipoPropiedad). -/
def matchesQuery (q : AirbnbQuery) (r : Listing) : Bool :=
  (match q.ciudad with
   | some c => iContains r.ubicacion.ciudad c
   | none => true) &&
  (match q.precioMin with
   | some m => decide (m ≤ r.precioPorNoche)
   | none => true) &&
  (match q.precioMax with
   | some m => decide (r.precioPorNoche ≤ m)
   | none => true) &&
  (match q.huespedes with
   | some h => decide (h ≤ r.huespedes)
   | none => true) &&
  (match q.tipo with
   | some t => r.tipoPropiedad == t
   | none => true)

/-- Result comparator of getAllAirbnb: calificacion.promedio descending,
then updatedAt descending. -/
def airbnbSortLe (a b : Listing) : Bool :=
  decide (b.califPromedio < a.califPromedio) ||
    (a.califPromedio == b.califPromedio && decide (b.updatedAt ≤ a.updatedAt))

/-- getAllAirbnb: a controller-super-admin caller gets every record with
all query filters ignored; anyone else (including anonymous) gets only
activo records matching the query filters; both sorted by rating then
recency. -/
def getAllAirbnb (db : Store) (u : Option User) (q : AirbnbQuery) :
    HResult (List Listing) :=
  let elevated := match u with
    | some usr => airbnbCtrlSuperAdmin usr
    | none => false
  let selected :=
    if elevated then db else db.filter (fun r => r.activo && matchesQuery q r)
  .ok 200 (selected.mergeSort airbnbSortLe)

/-- getAirbnb: public read by id with no activo filter; 404 only when no
record exists at the id. -/
def getAirbnb (db : Store) (i : String) : HResult Listing :=
  match findById db i with
  | none => .err 404 "No se encontró el alojamiento"
  | some r => .ok 200 r

/-- Cloudinary public id as reconstructed by the delete-image routes:
folder plus the last path segment of the URL with its extension cut. -/
def cloudinaryPublicId (url folder : String) : String :=
  folder ++ "/" ++ (((url.splitOn "/").getLastD "").splitOn ".").headD ""

/-- Success payload of the hotel delete-image route. -/
structure DeletedImage where
  url : String
  index : Int
  deriving DecidableEq

/-- DELETE /:hotelId/images/:imageIndex.  Lookup is strictly
owner-scoped (findOne on id + propietario + activo).  With the record
found: 404 when the list is empty, 404 when the parsed index is out of
[0, length), otherwise best-effort Cloudinary destroy - its outcome
(cloudinaryOk) is only logged, never fatal - then splice the element
out, refresh updatedAt and save.  Returns store, envelope and log. -/
def hotelDeleteImage (db : Store) (u : User) (hotelId : String) (index : Int)
    (cloudinaryOk : Bool) (now : Nat) :
    Store × HResult DeletedImage × List String :=
  match findOwnedActive db hotelId u.id with
  | none => (db, .err 404 "No se encontró hotel asociado o no tienes permisos", [])
  | some hotel =>
    if hotel.imagenes.length == 0 then
      (db, .err 404 "No hay imágenes para eliminar", [])
    else if index < 0 || (hotel.imagenes.length : Int) ≤ index then
      (db, .err 404 "Índice de imagen inválido", [])
    else
      let imagenAEliminar := hotel.imagenes.getD index.toNat ""
      let log :=
        if cloudinaryOk then
          ["Imagen eliminada de Cloudinary: " ++
            cloudinaryPublicId imagenAEliminar "turismo-app/hoteles"]
        else
          ["Error eliminando de Cloudinary (continuando)"]
      let hotel2 := { hotel with
        imagenes := hotel.imagenes.eraseIdx index.toNat
        updatedAt := now }
      (saveRecord db hotel2, .ok 200 ⟨imagenAEliminar, index⟩, log)

/-- PATCH /:hotelId/images/set-main.  Owner-scoped lookup; 404 on empty
list or out-of-range index; index 0 answers success with the current
primary and touches nothing; otherwise the element is spliced out and
unshifted to the front, updatedAt refreshed, record saved. -/
def hotelSetMain (db : Store) (u : User) (hotelId : String) (index : Int)
    (now : Nat) : Store × HResult String :=
  match findOwnedActive db hotelId u.id with
  | none => (db, .err 404 "No se encontró hotel asociado o no tienes permisos")
  | some hotel =>
    if hotel.imagenes.length == 0 then
      (db, .err 404 "No hay imágenes disponibles")
    else if index < 0 || (hotel.imagenes.length : Int) ≤ index then
      (db, .err 404 "Índice de imagen inválido")
    else if index == 0 then
      (db, .ok 200 (hotel.imagenes.headD ""))
    else
      let imagenPrincipal := hotel.imagenes.getD index.toNat ""
      let hotel2 := { hotel with
        imagenes := imagenPrincipal :: hotel.imagenes.eraseIdx index.toNat
        updatedAt := now }
      (saveRecord db hotel2, .ok 200 imagenPrincipal)

/-- POST /:hotelId/images/upload.  400 when no files arrived; lookup is
owner-scoped; the Cloudinary URLs of the uploaded files are pushed onto
the end of imagenes, updatedAt refreshed, record saved. -/
def hotelUploadImages (db : Store) (u : User) (hotelId : String)
    (files : List String) (now : Nat) : Store × HResult (List String) :=
  if files.length == 0 then
    (db, .err 400 "No se enviaron archivos")
  else
    match findOwnedActive db hotelId u.id with
    | none => (db, .err 404 "No se encontró hotel asociado o no tienes permisos")
    | some hotel =>
      let hotel2 := { hotel with
        imagenes := hotel.imagenes ++ files
        updatedAt := now }
      (saveRecord db hotel2, .ok 200 files)

/-- POST /:alojamientoId/upload-images (airbnb routes): identical shape
to the hotel upload - owner-scoped lookup, push, save. -/
def airbnbUploadImages (db : Store) (u : User) (alojamientoId : String)
    (files : List String) (now : Nat) : Store × HResult (List String) :=
  if files.length == 0 then
    (db, .err 400 "No se enviaron archivos de imagen")
  else
    match findOwnedActive db alojamientoId u.id with
    | none =>
      (db, .err 404 "No se encontró alojamiento asociado o no tienes permisos")
    | some a =>
      let a2 := { a with imagenes := a.imagenes ++ files, updatedAt := now }
      (saveRecord db a2, .ok 200 files)

/-- PATCH /:id/toggle-status (hotel): 403 before anything else unless
the caller passes the hotel super-admin test; then 404 when the id is
absent; otherwise flip activo, write the audit stamp with accion and
motivo, and save. -/
def hotelToggleStatus (db : Store) (u : User) (i : String) (now : Nat) :
    Store × HResult Listing :=
  if !hotelToggleSuperAdmin u then
    (db, .err 403 "No tienes permisos para realizar esta acción. Se requieren privilegios de super administrador.")
  else
    match findById db i with
    | none => (db, .err 404 "Hotel no encontrado")
    | some hotel =>
      let newActivo := !hotel.activo
      let hotel2 := { hotel with
        activo := newActivo
        ultimaModificacion := some {
          usuario := u.id
          fecha := now
          accion := some (if newActivo then "activado" else "bloqueado")
          motivo := some "Cambio de estado por super administrador" } }
      (saveRecord db hotel2, .ok 200 hotel2)

/-! Helper lemmas about the store primitives. -/

theorem findById_mem {db : Store} {i : String} {r : Listing}
    (h : findById db i = some r) : r ∈ db :=
  List.mem_of_find?_eq_some h

theorem findById_id {db : Store} {i : String} {r : Listing}
    (h : findById db i = some r) : r.id = i := by
  have := List.find?_some h
  simpa using this

theorem findById_saveRecord {db : Store} {i : String} {r : Listing}
    (r2 : Listing) (hfind : findById db i = some r) (hid : r2.id = r.id) :
    findById (saveRecord db r2) i = some r2 := by
  induction db with
  | nil => simp [findById] at hfind
  | cons x xs ih =>
    by_cases hx : x.id = i
    · rw [findById, List.find?_cons_of_pos _ (by simpa using hx)] at hfind
      have hxr : x = r := by injection hfind
      subst hxr
      show findById ((if x.id == r2.id then r2 else x) :: saveRecord xs r2) i = some r2
      have hcond : (x.id == r2.id) = true := by simp [hid]
      rw [if_pos hcond]
      rw [findById, List.find?_cons_of_pos _ (by simp [hid, hx])]
    · rw [findById, List.find?_cons_of_neg _ (by simpa using hx)] at hfind
      have hr : r.id = i := findById_id hfind
      have hxr : (x.id == r2.id) = false := by
        simp only [beq_eq_false_iff_ne, ne_eq, hid, hr]
        exact hx
      show findById ((if x.id == r2.id then r2 else x) :: saveRecord xs r2) i = some r2
      rw [if_neg (by simp [hxr])]
      rw [findById, List.find?_cons_of_neg _ (by simpa using hx)]
      exact ih hfind

theorem saveRecord_length (db : Store) (r : Listing) :
    (saveRecord db r).length = db.length := by
  simp [saveRecord]

/-- C1 fixtures: an administrator, and a creation body whose
client-supplied owner field differs from the creator. -/
def ownerUser : User := { id := "owner1", email := "owner@example.com" }

def creationBody : Listing :=
  { id := "client-id", propietario := "client-owner", nombre := "Casa Azul" }

/-- C1: at creation the stored owner is the creator (the body's owner
field is overwritten), but a later update whose patch carries a
propietario key reassigns the persisted owner to the patch value: the
handler copies the whole body into updateData and findByIdAndUpdate
applies it, so the owner set at creation is NOT preserved by every
successful update. -/
theorem updateAirbnb_patch_reassigns_owner :
    ((createAirbnb [] ownerUser creationBody "a1").2 =
      .ok 201 { creationBody with id := "a1", propietario := ownerUser.id }) ∧
    ((updateAirbnb (createAirbnb [] ownerUser creationBody "a1").1 ownerUser "a1"
        { propietario := some "intruder" } 7).2.isOk = true) ∧
    ((findById
        (updateAirbnb (createAirbnb [] ownerUser creationBody "a1").1 ownerUser "a1"
          { propietario := some "intruder" } 7).1 "a1").map Listing.propietario =
      some "intruder") ∧
    "intruder" ≠ ownerUser.id := by
  exact ⟨rfl, rfl, rfl, by decide⟩

/-- C10: the public read by id applies no activo filter: whenever a
record (active or not) is stored at the id it is returned whole with
code 200, and 404 is produced exactly when no record exists there. -/
theorem getAirbnb_ignores_activo (db : Store) (i : String) :
    (∀ r : Listing, findById db i = some r → getAirbnb db i = .ok 200 r) ∧
    (findById db i = none →
      getAirbnb db i = .err 404 "No se encontró el alojamiento") := by
  constructor
  · intro r h
    simp [getAirbnb, h]
  · intro h
    simp [getAirbnb, h]

def inactiveListing : Listing := { id := "a9", propietario := "p1", activo := false }

/-- Witness for C10: a soft-deleted (activo = false) record is still
returned in full by the public read. -/
theorem getAirbnb_ignores_activo_witness :
    inactiveListing.activo = false ∧
    getAirbnb [inactiveListing] "a9" = .ok 200 inactiveListing :=
  ⟨rfl, (getAirbnb_ignores_activo [inactiveListing] "a9").1 inactiveListing rfl⟩

/-- The C9 claim as stated: some single resource type's toggle-status
email allow-list contains an email that neither of the other two
resource types' lists contains, and the three super-admin predicates are
not all the same function. -/
def uniqueExtraEmailClaim : Prop :=
  (∃ e : String,
    (e ∈ hotelToggleEmails ∧ e ∉ cabanaToggleEmails ∧ e ∉ airbnbToggleEmails) ∨
    (e ∈ cabanaToggleEmails ∧ e ∉ hotelToggleEmails ∧ e ∉ airbnbToggleEmails) ∨
    (e ∈ airbnbToggleEmails ∧ e ∉ hotelToggleEmails ∧ e ∉ cabanaToggleEmails)) ∧
  ¬(hotelToggleSuperAdmin = cabanaToggleSuperAdmin ∧
    cabanaToggleSuperAdmin = airbnbToggleSuperAdmin)

/-- Counterexample for C9: no email is exclusive to a single list - the
one email the lists disagree on (superadmin@turismo.com) is present in
BOTH the cabin and the airbnb lists and absent only from the hotel one,
so the claim as stated is false. -/
theorem uniqueExtraEmailClaim_refuted : ¬ uniqueExtraEmailClaim := by
  rintro ⟨⟨e, h | h | h⟩, -⟩
  · obtain ⟨h1, h2, -⟩ := h
    simp only [hotelToggleEmails, List.mem_cons, List.not_mem_nil, or_false] at h1
    subst h1
    exact h2 (by decide)
  · obtain ⟨h1, h2, h3⟩ := h
    simp only [cabanaToggleEmails, List.mem_cons, List.not_mem_nil, or_false] at h1
    rcases h1 with h1 | h1 <;> subst h1
    · exact h3 (by decide)
    · exact h2 (by decide)
  · obtain ⟨h1, h2, h3⟩ := h
    simp only [airbnbToggleEmails, List.mem_cons, List.not_mem_nil, or_false] at h1
    rcases h1 with h1 | h1 <;> subst h1
    · exact h3 (by decide)
    · exact h2 (by decide)

/-- C9 amended: the drift is real but sits the other way around - the
cabin and airbnb toggle allow-lists both carry superadmin@turismo.com,
which the hotel list lacks; consequently the cabin and airbnb super-admin
predicates coincide while the hotel one is a different function,
rejecting a user the other two accept. -/
theorem toggle_allowlists_divergence :
    "superadmin@turismo.com" ∈ cabanaToggleEmails ∧
    "superadmin@turismo.com" ∈ airbnbToggleEmails ∧
    "superadmin@turismo.com" ∉ hotelToggleEmails ∧
    cabanaToggleEmails = airbnbToggleEmails ∧
    cabanaToggleSuperAdmin = airbnbToggleSuperAdmin ∧
    (∃ u : User, hotelToggleSuperAdmin u = false ∧
      cabanaToggleSuperAdmin u = true ∧ airbnbToggleSuperAdmin u = true) := by
  refine ⟨by decide, by decide, by decide, rfl, rfl,
    ⟨{ id := "u1", email := "superadmin@turismo.com" }, by decide, by decide, by decide⟩⟩

/-- C6: with a non-empty image list, set-main at index 0 is an
idempotent no-op rather than an error: the store is returned untouched
and the response is success carrying the current primary, which is the
image at position 0. -/
theorem setMain_zero_noop (db : Store) (u : User) (hid : String) (now : Nat)
    (r : Listing) (hfind : findOwnedActive db hid u.id = some r)
    (hne : r.imagenes ≠ []) :
    hotelSetMain db u hid 0 now = (db, .ok 200 (r.imagenes.headD "")) ∧
    r.imagenes.headD "" = r.imagenes.getD 0 "" := by
  have hlen : r.imagenes.length ≠ 0 := by
    simpa [List.length_eq_zero] using hne
  constructor
  · simp [hotelSetMain, hfind, hlen]
  · cases himg : r.imagenes with
    | nil => exact absurd himg hne
    | cons a l => rfl

def mainDemoListing : Listing :=
  { id := "h6", propietario := "owner6", imagenes := ["x.jpg", "y.jpg"] }

def mainDemoOwner : User := { id := "owner6", email := "o6@example.com" }

/-- Witness for C6 at a concrete two-image record. -/
theorem setMain_zero_noop_witness :
    hotelSetMain [mainDemoListing] mainDemoOwner "h6" 0 3 =
      ([mainDemoListing], .ok 200 "x.jpg") :=
  (setMain_zero_noop [mainDemoListing] mainDemoOwner "h6" 3 mainDemoListing
    rfl (by decide)).1

/-! Helper lemmas about ordered removal and the list endpoint. -/

theorem getD_eraseIdx_of_lt {l : List String} {i j : Nat} (hj : j < i)
    (hi : i < l.length) : (l.eraseIdx i).getD j "" = l.getD j "" := by
  have hlen : (l.eraseIdx i).length = l.length - 1 := by
    simp [List.length_eraseIdx, hi]
  have hj1 : j < (l.eraseIdx i).length := by omega
  have hj2 : j < l.length := by omega
  rw [List.getD_eq_getElem _ _ hj1, List.getD_eq_getElem _ _ hj2,
    List.getElem_eraseIdx]
  simp [hj]

theorem getD_eraseIdx_of_ge {l : List String} {i j : Nat} (hj : i ≤ j)
    (hj2 : j + 1 < l.length) : (l.eraseIdx i).getD j "" = l.getD (j + 1) "" := by
  have hi : i < l.length := by omega
  have hlen : (l.eraseIdx i).length = l.length - 1 := by
    simp [List.length_eraseIdx, hi]
  have hj1 : j < (l.eraseIdx i).length := by omega
  rw [List.getD_eq_getElem _ _ hj1, List.getD_eq_getElem _ _ hj2,
    List.getElem_eraseIdx]
  simp [Nat.not_lt.mpr hj]

theorem getAll_nonelevated_all_active {db : Store} {v : User} {q : AirbnbQuery}
    (hv : airbnbCtrlSuperAdmin v = false) {lst : List Listing}
    (h : getAllAirbnb db (some v) q = .ok 200 lst) :
    ∀ x ∈ lst, x.activo = true := by
  intro x hx
  simp only [getAllAirbnb, hv, if_false] at h
  have hlst : lst = (db.filter (fun r => r.activo && matchesQuery q r)).mergeSort airbnbSortLe := by
    cases h
    rfl
  subst hlst
  have hmem := List.mem_mergeSort.mp hx
  have hpred := (List.mem_filter.mp hmem).2
  simp only [Bool.and_eq_true] at hpred
  exact hpred.1

theorem getAll_elevated_includes {db : Store} {w : User} {q : AirbnbQuery}
    (hw : airbnbCtrlSuperAdmin w = true) {lst : List Listing}
    (h : getAllAirbnb db (some w) q = .ok 200 lst) :
    ∀ x ∈ db, x ∈ lst := by
  intro x hx
  simp only [getAllAirbnb, hw, if_true] at h
  have hlst : lst = db.mergeSort airbnbSortLe := by
    cases h
    rfl
  subst hlst
  exact List.mem_mergeSort.mpr hx

/-- C3: toggle-status is stricter than update - a caller failing the
super-admin test gets 403 with the store untouched (even the owner),
while a super-admin caller flips activo and a full audit stamp (actor,
time, action, reason) is persisted; yet the plain update endpoint does
succeed for the non-elevated owner of the same record. -/
theorem toggleActive_strict_elevation (db : Store) (u v : User) (i : String)
    (now later : Nat) (r : Listing) (p : Patch)
    (hu : hotelToggleSuperAdmin u = false)
    (hv : hotelToggleSuperAdmin v = true)
    (hfind : findById db i = some r) (hown : r.propietario = u.id) :
    hotelToggleStatus db u i now =
      (db, .err 403 "No tienes permisos para realizar esta acción. Se requieren privilegios de super administrador.") ∧
    hotelToggleStatus db v i now =
      (saveRecord db { r with
          activo := !r.activo
          ultimaModificacion := some {
            usuario := v.id
            fecha := now
            accion := some (if !r.activo then "activado" else "bloqueado")
            motivo := some "Cambio de estado por super administrador" } },
        .ok 200 { r with
          activo := !r.activo
          ultimaModificacion := some {
            usuario := v.id
            fecha := now
            accion := some (if !r.activo then "activado" else "bloqueado")
            motivo := some "Cambio de estado por super administrador" } }) ∧
    (updateAirbnb db u i p later).2.isOk = true := by
  refine ⟨?_, ?_, ?_⟩
  · simp [hotelToggleStatus, hu]
  · simp [hotelToggleStatus, hv, hfind]
  · simp [updateAirbnb, hfind, hown, HResult.isOk]

def togListing : Listing := { id := "t1", propietario := "owner1" }

def togDb : Store := [togListing]

def togSuper : User := { id := "s1", email := "direcciondeturismojalpan@gmail.com" }

/-- Witness for C3: the non-elevated owner is rejected by toggle-status
but allowed by update on the same record. -/
theorem toggleActive_strict_elevation_witness :
    hotelToggleStatus togDb ownerUser "t1" 5 =
      (togDb, .err 403 "No tienes permisos para realizar esta acción. Se requieren privilegios de super administrador.") ∧
    (updateAirbnb togDb ownerUser "t1" {} 6).2.isOk = true :=
  ⟨(toggleActive_strict_elevation togDb ownerUser togSuper "t1" 5 6 togListing {}
      (by decide) (by decide) rfl rfl).1,
   (toggleActive_strict_elevation togDb ownerUser togSuper "t1" 5 6 togListing {}
      (by decide) (by decide) rfl rfl).2.2⟩

/-- C7: once the index is valid, Cloudinary failure is caught and
swallowed - whatever the external outcome, the image is removed from
the stored record, the updated record is persisted and the route
answers success with the removed reference. -/
theorem removeAt_external_failure_swallowed (db : Store) (u : User)
    (hid : String) (idx : Int) (now : Nat) (r : Listing)
    (hfind : findOwnedActive db hid u.id = some r)
    (h0 : 0 ≤ idx) (hlt : idx < (r.imagenes.length : Int)) :
    ∀ failed : Bool,
      (hotelDeleteImage db u hid idx failed now).1 =
        saveRecord db { r with
          imagenes := r.imagenes.eraseIdx idx.toNat, updatedAt := now } ∧
      (hotelDeleteImage db u hid idx failed now).2.1 =
        .ok 200 ⟨r.imagenes.getD idx.toNat "", idx⟩ := by
  intro failed
  have hpos : 0 < r.imagenes.length := by
    have : (0 : Int) < (r.imagenes.length : Int) := lt_of_le_of_lt h0 hlt
    exact_mod_cast this
  constructor <;>
    simp [hotelDeleteImage, hfind, hpos.ne', Int.not_lt.mpr h0, Int.not_le.mpr hlt]

def delDemoOwner : User := { id := "owner7", email := "o7@example.com" }

def delDemoListing : Listing :=
  { id := "h7", propietario := "owner7", imagenes := ["a.jpg", "b.jpg", "c.jpg"] }

/-- Witness for C7: with the external deletion failing, the middle image
is still removed and persisted and the route reports success. -/
theorem removeAt_external_failure_swallowed_witness :
    (hotelDeleteImage [delDemoListing] delDemoOwner "h7" 1 false 4).1 =
      [{ delDemoListing with imagenes := ["a.jpg", "c.jpg"], updatedAt := 4 }] ∧
    (hotelDeleteImage [delDemoListing] delDemoOwner "h7" 1 false 4).2.1 =
      .ok 200 ⟨"b.jpg", 1⟩ := by
  have h := removeAt_external_failure_swallowed [delDemoListing] delDemoOwner
    "h7" 1 4 delDemoListing rfl (by decide) (by decide) false
  exact ⟨h.1.trans (by rfl), h.2⟩

/-- C5: for a valid positive index, set-main removes the chosen image
and reinserts it at position 0: the new head is the chosen image, the
list keeps its length, every image before the chosen one shifts right by
exactly one place (order preserved) and every image after it keeps its
position. -/
theorem setMain_moves_to_front (db : Store) (u : User) (hid : String)
    (idx : Int) (now : Nat) (r : Listing)
    (hfind : findOwnedActive db hid u.id = some r)
    (h0 : 0 < idx) (hlt : idx < (r.imagenes.length : Int)) :
    hotelSetMain db u hid idx now =
      (saveRecord db { r with
          imagenes := r.imagenes.getD idx.toNat "" :: r.imagenes.eraseIdx idx.toNat
          updatedAt := now },
        .ok 200 (r.imagenes.getD idx.toNat "")) ∧
    (r.imagenes.getD idx.toNat "" :: r.imagenes.eraseIdx idx.toNat).length =
      r.imagenes.length ∧
    (r.imagenes.getD idx.toNat "" :: r.imagenes.eraseIdx idx.toNat).getD 0 "" =
      r.imagenes.getD idx.toNat "" ∧
    (∀ j : Nat, j < idx.toNat →
      (r.imagenes.getD idx.toNat "" :: r.imagenes.eraseIdx idx.toNat).getD (j + 1) "" =
        r.imagenes.getD j "") ∧
    (∀ j : Nat, idx.toNat < j → j < r.imagenes.length →
      (r.imagenes.getD idx.toNat "" :: r.imagenes.eraseIdx idx.toNat).getD j "" =
        r.imagenes.getD j "") := by
  have hidx : idx.toNat < r.imagenes.length := by omega
  have hpos : 0 < r.imagenes.length := by omega
  refine ⟨?_, ?_, ?_, ?_, ?_⟩
  · have hne : ¬(idx < 0) := by omega
    have hne2 : ¬((r.imagenes.length : Int) ≤ idx) := by omega
    have hzero : ¬(idx = 0) := by omega
    simp [hotelSetMain, hfind, hpos.ne', hne, hne2, hzero]
  · simp [List.length_eraseIdx, hidx]
    omega
  · simp
  · intro j hj
    rw [List.getD_cons_succ]
    exact getD_eraseIdx_of_lt hj hidx
  · intro j hj1 hj2
    obtain ⟨k, rfl⟩ : ∃ k, j = k + 1 := ⟨j - 1, by omega⟩
    rw [List.getD_cons_succ]
    exact getD_eraseIdx_of_ge (by omega) (by omega)

def scenOwner : User := { id := "owner5", email := "o5@example.com" }

def scenListing : Listing :=
  { id := "h5", propietario := "owner5", imagenes := ["a", "b", "c"] }

/-- Witness for C5, running the spec scenario: images [a, b, c],
set-main at 2 gives [c, a, b], then deleting index 1 gives [c, b]. -/
theorem setMain_moves_to_front_witness :
    hotelSetMain [scenListing] scenOwner "h5" 2 11 =
      ([{ scenListing with imagenes := ["c", "a", "b"], updatedAt := 11 }],
        .ok 200 "c") ∧
    (hotelDeleteImage (hotelSetMain [scenListing] scenOwner "h5" 2 11).1
        scenOwner "h5" 1 true 12).1 =
      [{ scenListing with imagenes := ["c", "b"], updatedAt := 12 }] := by
  have h := (setMain_moves_to_front [scenListing] scenOwner "h5" 2 11 scenListing
    rfl (by decide) (by decide)).1
  exact ⟨h.trans (by rfl), rfl⟩

theorem hotelDeleteImage_valid {db : Store} {u : User} {hid : String}
    {idx : Int} {r : Listing} (b : Bool) (now : Nat)
    (hfind : findOwnedActive db hid u.id = some r)
    (h0 : 0 ≤ idx) (hlt : idx < (r.imagenes.length : Int)) :
    (hotelDeleteImage db u hid idx b now).1 =
      saveRecord db { r with
        imagenes := r.imagenes.eraseIdx idx.toNat, updatedAt := now } ∧
    (hotelDeleteImage db u hid idx b now).2.1 =
      .ok 200 ⟨r.imagenes.getD idx.toNat "", idx⟩ := by
  have hpos : 0 < r.imagenes.length := by
    have : (0 : Int) < (r.imagenes.length : Int) := lt_of_le_of_lt h0 hlt
    exact_mod_cast this
  constructor <;>
    simp [hotelDeleteImage, hfind, hpos.ne', Int.not_lt.mpr h0, Int.not_le.mpr hlt]

/-- C4: with the owner-scoped lookup succeeded, the delete-image route
answers an index error (404, store untouched) exactly when the image
list is empty or the index falls outside [0, length); for every in-range
index the element there is removed and persisted, the list shrinks by
one, elements before the index keep their positions and elements after
it shift left by one, preserving relative order. -/
theorem removeAt_index_spec (db : Store) (u : User) (hid : String) (idx : Int)
    (ok : Bool) (now : Nat) (r : Listing)
    (hfind : findOwnedActive db hid u.id = some r) :
    ((hotelDeleteImage db u hid idx ok now).2.1.isOk = false ↔
      r.imagenes.length = 0 ∨ idx < 0 ∨ (r.imagenes.length : Int) ≤ idx) ∧
    ((hotelDeleteImage db u hid idx ok now).2.1.isOk = false →
      (hotelDeleteImage db u hid idx ok now).1 = db) ∧
    (∀ (_ : 0 ≤ idx) (_ : idx < (r.imagenes.length : Int)),
      (hotelDeleteImage db u hid idx ok now).1 =
        saveRecord db { r with
          imagenes := r.imagenes.eraseIdx idx.toNat, updatedAt := now } ∧
      (hotelDeleteImage db u hid idx ok now).2.1 =
        .ok 200 ⟨r.imagenes.getD idx.toNat "", idx⟩ ∧
      (r.imagenes.eraseIdx idx.toNat).length = r.imagenes.length - 1 ∧
      (∀ j : Nat, j < idx.toNat →
        (r.imagenes.eraseIdx idx.toNat).getD j "" = r.imagenes.getD j "") ∧
      (∀ j : Nat, idx.toNat ≤ j → j + 1 < r.imagenes.length →
        (r.imagenes.eraseIdx idx.toNat).getD j "" = r.imagenes.getD (j + 1) "")) := by
  by_cases h1 : r.imagenes.length = 0
  · refine ⟨?_, fun _ => ?_, fun _ hlt => ?_⟩
    · simp [hotelDeleteImage, hfind, h1, HResult.isOk]
    · simp [hotelDeleteImage, hfind, h1]
    · exact absurd hlt (by simp [h1]; omega)
  · by_cases h2 : idx < 0
    · refine ⟨?_, fun _ => ?_, fun h0pos _ => absurd h2 (by omega)⟩
      · simp [hotelDeleteImage, hfind, h1, h2, HResult.isOk]
      · simp [hotelDeleteImage, hfind, h1, h2]
    · by_cases h3 : (r.imagenes.length : Int) ≤ idx
      · refine ⟨?_, fun _ => ?_, fun _ hlt => absurd h3 (by omega)⟩
        · simp [hotelDeleteImage, hfind, h1, h2, h3, HResult.isOk]
        · simp [hotelDeleteImage, hfind, h1, h2, h3]
      · have h0 : 0 ≤ idx := by omega
        have hlt : idx < (r.imagenes.length : Int) := by omega
        have hvalid := hotelDeleteImage_valid ok now hfind h0 hlt
        have hidx : idx.toNat < r.imagenes.length := by omega
        refine ⟨?_, ?_, fun _ _ => ?_⟩
        · rw [hvalid.2]
          simp [HResult.isOk, h1, h2, h3]
        · intro hbad
          rw [hvalid.2] at hbad
          simp [HResult.isOk] at hbad
        · refine ⟨hvalid.1, hvalid.2, ?_, ?_, ?_⟩
          · simp [List.length_eraseIdx, hidx]
          · intro j hj
            exact getD_eraseIdx_of_lt hj hidx
          · intro j hj hj2
            exact getD_eraseIdx_of_ge hj hj2

def remDemoOwner : User := { id := "owner4", email := "o4@example.com" }

def remDemoListing : Listing :=
  { id := "h4", propietario := "owner4", imagenes := ["p", "q"] }

/-- Witness for C4: on a two-image record, index 2 is rejected while
index 0 removes the first image. -/
theorem removeAt_index_spec_witness :
    ((hotelDeleteImage [remDemoListing] remDemoOwner "h4" 2 true 8).2.1.isOk
      = false) ∧
    ((hotelDeleteImage [remDemoListing] remDemoOwner "h4" 0 true 8).2.1 =
      .ok 200 ⟨"p", 0⟩) := by
  have h := removeAt_index_spec [remDemoListing] remDemoOwner "h4" 2 true 8
    remDemoListing rfl
  have h2 := removeAt_index_spec [remDemoListing] remDemoOwner "h4" 0 true 8
    remDemoListing rfl
  refine ⟨h.1.mpr (Or.inr (Or.inr (by decide))), ?_⟩
  exact ((h2.2.2 (by decide) (by decide)).2.1).trans (by rfl)

/-- C2 fixtures: a caller elevated under every super-admin predicate in
the codebase, and an active record owned by someone else. -/
def elevatedNonOwner : User :=
  { id := "admin9", email := "superadmin@turismo.com",
    isSuperAdmin := true, role := "super-admin" }

def ownedHotel : Listing :=
  { id := "h1", propietario := "owner1", imagenes := ["a.jpg", "b.jpg"] }

/-- Counterexample for C2: the image routes look records up with
findOne on id + propietario + activo, so a fully elevated caller who is
not the owner is NOT allowed - every image-list mutation (remove,
set-main, append, on hotels and on airbnb) answers 404 and leaves the
store untouched. -/
theorem imageMutation_elevated_denied :
    airbnbCtrlSuperAdmin elevatedNonOwner = true ∧
    hotelToggleSuperAdmin elevatedNonOwner = true ∧
    elevatedNonOwner.id ≠ ownedHotel.propietario ∧
    ownedHotel.activo = true ∧
    hotelDeleteImage [ownedHotel] elevatedNonOwner "h1" 0 true 9 =
      ([ownedHotel], .err 404 "No se encontró hotel asociado o no tienes permisos", []) ∧
    hotelSetMain [ownedHotel] elevatedNonOwner "h1" 1 9 =
      ([ownedHotel], .err 404 "No se encontró hotel asociado o no tienes permisos") ∧
    hotelUploadImages [ownedHotel] elevatedNonOwner "h1" ["c.jpg"] 9 =
      ([ownedHotel], .err 404 "No se encontró hotel asociado o no tienes permisos") ∧
    airbnbUploadImages [ownedHotel] elevatedNonOwner "h1" ["c.jpg"] 9 =
      ([ownedHotel], .err 404 "No se encontró alojamiento asociado o no tienes permisos") := by
  exact ⟨rfl, rfl, by decide, rfl, rfl, rfl, rfl, rfl⟩

/-- C2 amended: image-list mutations are owner-only - whenever the
owner-scoped lookup fails (in particular for any caller, elevated or
not, who is not the owner of the active record at the id), append,
removeAt and setPrimary are all denied with 404 and the store is
unchanged; elevation grants no bypass on these routes. -/
theorem imageMutation_ownerOnly (db : Store) (u : User) (hid : String)
    (idx : Int) (ok : Bool) (files : List String) (now : Nat)
    (hfind : findOwnedActive db hid u.id = none) (hfiles : files.length ≠ 0) :
    hotelDeleteImage db u hid idx ok now =
      (db, .err 404 "No se encontró hotel asociado o no tienes permisos", []) ∧
    hotelSetMain db u hid idx now =
      (db, .err 404 "No se encontró hotel asociado o no tienes permisos") ∧
    hotelUploadImages db u hid files now =
      (db, .err 404 "No se encontró hotel asociado o no tienes permisos") ∧
    airbnbUploadImages db u hid files now =
      (db, .err 404 "No se encontró alojamiento asociado o no tienes permisos") := by
  refine ⟨?_, ?_, ?_, ?_⟩ <;>
    simp [hotelDeleteImage, hotelSetMain, hotelUploadImages, airbnbUploadImages,
      hfind, hfiles]

/-- Witness for C2 (amended): the elevated non-owner from the
counterexample is exactly such a caller. -/
theorem imageMutation_ownerOnly_witness :
    elevatedNonOwner.isSuperAdmin = true ∧
    hotelSetMain [ownedHotel] elevatedNonOwner "h1" 1 10 =
      ([ownedHotel], .err 404 "No se encontró hotel asociado o no tienes permisos") :=
  ⟨rfl, (imageMutation_ownerOnly [ownedHotel] elevatedNonOwner "h1" 1 true
    ["c.jpg"] 10 rfl (by decide)).2.1⟩

/-- C8: the owner soft-deletes a record - the response is 204, the
record is still physically stored (same store size, still found by id)
with activo now false; afterwards the public list excludes it for every
non-elevated viewer and every filter, while a controller-super-admin
viewer still receives it (query filters ignored). -/
theorem softDelete_visibility (db : Store) (u v w : User) (i : String)
    (r : Listing) (q q2 : AirbnbQuery)
    (hfind : findById db i = some r) (hown : r.propietario = u.id)
    (hv : airbnbCtrlSuperAdmin v = false)
    (hw : airbnbCtrlSuperAdmin w = true) :
    (deleteAirbnb db u i).2 = .ok 204 () ∧
    (deleteAirbnb db u i).1.length = db.length ∧
    findById (deleteAirbnb db u i).1 i = some { r with activo := false } ∧
    (∀ lst, getAllAirbnb (deleteAirbnb db u i).1 (some v) q = .ok 200 lst →
      { r with activo := false } ∉ lst) ∧
    (∀ lst, getAllAirbnb (deleteAirbnb db u i).1 (some w) q2 = .ok 200 lst →
      { r with activo := false } ∈ lst) := by
  have hstep : deleteAirbnb db u i =
      (saveRecord db { r with activo := false }, .ok 204 ()) := by
    simp [deleteAirbnb, hfind, hown]
  have hfind2 : findById (deleteAirbnb db u i).1 i =
      some { r with activo := false } := by
    rw [hstep]
    exact findById_saveRecord _ hfind rfl
  refine ⟨by rw [hstep], by rw [hstep]; exact saveRecord_length db _, hfind2,
    ?_, ?_⟩
  · intro lst hl hmem
    have hact := getAll_nonelevated_all_active hv hl _ hmem
    simp at hact
  · intro lst hl
    exact getAll_elevated_includes hw hl _ (findById_mem hfind2)

def superViewer : User :=
  { id := "sv1", email := "direcciondeturismojalpan@gmail.com" }

/-- Witness for C8: after the owner deletes the only record, the
non-elevated owner sees an empty list while the super-admin viewer still
sees the record, inactive. -/
theorem softDelete_visibility_witness :
    (deleteAirbnb togDb ownerUser "t1").2 = .ok 204 () ∧
    findById (deleteAirbnb togDb ownerUser "t1").1 "t1" =
      some { togListing with activo := false } ∧
    { togListing with activo := false } ∉ ([] : List Listing) ∧
    { togListing with activo := false } ∈ [{ togListing with activo := false }] := by
  have h := softDelete_visibility togDb ownerUser ownerUser superViewer "t1"
    togListing {} {} rfl rfl (by decide) (by decide)
  refine ⟨h.1, h.2.2.1, ?_, ?_⟩
  · refine h.2.2.2.1 [] ?_
    simp [deleteAirbnb, getAllAirbnb, togDb, togListing, ownerUser,
      airbnbCtrlSuperAdmin, findById, saveRecord]
  · refine h.2.2.2.2 [{ togListing with activo := false }] ?_
    simp [deleteAirbnb, getAllAirbnb, togDb, togListing, superViewer, ownerUser,
      airbnbCtrlSuperAdmin, findById, saveRecord, List.mergeSort_singleton]
